import Mathlib

set_option autoImplicit false

/-!
Shallow embedding of `mmworkbench/models/tagger_models.py`: the `TaggerModel`
orchestration wrapper around sequence-tagging classifiers (MEMM, CRF).
Collaborator objects (classifiers, label encoders, feature extraction) are out
of scope of the module and are modelled as oracle functions supplied in a
`Collab` record; opaque collaborator-owned data (encoded targets, feature
matrices, fitted classifier internals) are modelled as opaque handles.
Python exceptions are modelled with `Except PyErr`; `logger.warning` calls are
modelled as an explicit warning list in the result.
-/

namespace Mmwb

/-- Inner entity payload: only `entity.entity.type` is inspected by the module. -/
structure EntityInner where
  type : String
deriving DecidableEq, Repr

/-- A query entity annotation (`mmworkbench.core.QueryEntity`). -/
structure QueryEntity where
  entity : EntityInner
deriving DecidableEq, Repr

/-- A label is a tuple of query entities aligned to one query; the empty
Python tuple `()` is the empty list. -/
abbrev Label := List QueryEntity

/-- Hyperparameter dict: parameter name to an opaque value handle. -/
abbrev Params := List (String × Nat)

/-- Resource cache dict (`self._resources`): key to an opaque value handle. -/
abbrev Resources := List (String × Nat)

/-- Feature-extractor parameter values, as they occur in `DEFAULT_FEATURES`. -/
inductive FeatParam where
  | ints (xs : List Int)
  | intMap (m : List (Int × List Int))
deriving DecidableEq, Repr

/-- Parameter dict of one feature extractor. -/
abbrev FeatSpec := List (String × FeatParam)

/-- Python exceptions that can escape the modelled code paths. -/
inductive PyErr where
  | indexError
  | keyError (k : String)
  | valueError (msg : String)
  | attributeError (name : String)
  | collabError (code : Nat)
deriving DecidableEq, Repr

/-- Warnings emitted through `logger.warning`, identified by call site. -/
inductive WarnMsg where
  | noLabelsFit
  | noLabelsEval
deriving DecidableEq, Repr

/-- First-match lookup in a Python-dict-as-association-list. -/
def dictGet {β : Type} (d : List (String × β)) (k : String) : Option β :=
  match d with
  | [] => none
  | kv :: rest => if kv.1 == k then some kv.2 else dictGet rest k

/-- Modelled from the spec: `ModelConfig` lives in `models/model.py`, which is
not under src/. Per the spec it is an immutable configuration bundle holding
`features`, `model_settings` (includes `classifier_type`), `params`,
`param_selection` and `label_type`; `to_dict`/reconstruction round-trips. -/
structure ModelConfig where
  features : List (String × FeatSpec)
  model_settings : List (String × String)
  params : Params
  param_selection : Option Nat
  label_type : String
deriving DecidableEq, Repr

/-- The module-level constant `MEMM_TYPE`. -/
def MEMM_TYPE : String := "memm"

/-- The module-level constant `CRF_TYPE`. -/
def CRF_TYPE : String := "crf"

/-- The module-level constant `DEFAULT_FEATURES`. -/
def DEFAULT_FEATURES : List (String × FeatSpec) :=
  [("bag-of-words-seq",
     [("ngram_lengths_to_start_positions",
        FeatParam.intMap [(1, [-2, -1, 0, 1, 2]), (2, [-2, -1, 0, 1])])]),
   ("in-gaz-span-seq", []),
   ("sys-candidates-seq",
     [("start_positions", FeatParam.ints [-1, 0, 1])])]

/-- The two classifier constructors the type tag can select. -/
inductive TaggerType where
  | MemmModel
  | ConditionalRandomFields
deriving DecidableEq, Repr

/-- A single-quote character, as produced by Python `repr` on a string. -/
def sq : String := String.singleton (Char.ofNat 39)

/-- Python `repr` of a plain string: the string wrapped in single quotes. -/
def pyReprStr (s : String) : String := sq ++ s ++ sq

/-- The message of the `ValueError` raised by `_get_model_constructor`:
`'{}: Classifier type {!r} not recognized'.format(cls_name, classifier_type)`. -/
def classifierNotRecognizedMsg (className ct : String) : String :=
  className ++ ": Classifier type " ++ pyReprStr ct ++ " not recognized"

/-- The value of `self.__class__.__name__` for a `TaggerModel` instance. -/
def taggerClassName : String := "TaggerModel"

/-- Opaque handle to a label-encoder object returned by `get_label_encoder`. -/
abbrev Encoder := Nat

/-- Opaque handle to an encoded target vector `y`. -/
abbrev TargetY := Nat

/-- Opaque handle to an extracted feature matrix `X`. -/
abbrev FeatX := Nat

/-- Opaque handle to the group-index array returned by feature extraction. -/
abbrev Groups := Nat

/-- Opaque handle to one predicted tag sequence. -/
abbrev TagSeq := Nat

/-- The fitted classifier stored in `self._clf` after a successful `fit`:
a record of the selected constructor and the data it was fitted with
(`set_params(**params)` followed by `clf.fit(X, y)`). -/
structure FittedClf where
  classifier_type : TaggerType
  params : Params
  X : FeatX
  y : TargetY
deriving DecidableEq, Repr

/-- Oracle record for the external collaborators (label encoders, classifier
feature extraction / fitting / prediction, cross-validated search). These are
out of scope of the module; any behavior is allowed. -/
structure Collab (α : Type) where
  get_label_encoder : ModelConfig → Encoder
  encode : Encoder → List Label → List α → Except PyErr TargetY
  extract_features : TaggerType → List α → ModelConfig → Resources → TargetY →
    Except PyErr (FeatX × TargetY × Groups)
  fit_cv : TaggerType → FeatX → TargetY → Groups → Params
  extract_and_predict : FittedClf → List α → ModelConfig → Resources → List TagSeq
  decode : Encoder → TagSeq → α → Label

/-- The attribute state of a `TaggerModel` instance. -/
structure TaggerModel (α : Type) where
  config : ModelConfig
  resources : Resources
  no_entities : Bool
  clf : Option FittedClf
  label_encoder : Option Encoder
  current_params : Option Params
  types : Option (List String)
deriving DecidableEq

/-- Observable interactions of one `fit` call: warnings logged, whether a
classifier / label encoder was constructed, whether cross-validated parameter
search ran, and the argument lists handed to `encode` (labels, examples) and
to `extract_features` (examples). -/
structure FitLog (α : Type) where
  warnings : List WarnMsg
  constructed_clf : Bool
  constructed_encoder : Bool
  ran_param_search : Bool
  encode_args : Option (List Label × List α)
  extract_args : Option (List α)
deriving DecidableEq

/-- Construction (`__init__`): if the configuration carries no features
(Python truthiness on the dict), a derived configuration with
`DEFAULT_FEATURES` is built; then `super().__init__(config)` stores the config
(base `Model.__init__` is not under src/ and is modelled from the spec: it
stores `config` and an initially empty `_resources` cache), and
`self._no_entities = False`. -/
def TaggerModel.init {α : Type} (config : ModelConfig) : TaggerModel α :=
  let config :=
    if config.features.isEmpty then { config with features := DEFAULT_FEATURES }
    else config
  { config := config, resources := [], no_entities := false, clf := none,
    label_encoder := none, current_params := none, types := none }

/-- The dispatch of `_get_model_constructor`: dict lookup of the type tag in
`{MEMM_TYPE: MemmModel, CRF_TYPE: ConditionalRandomFields}`, with the
`KeyError` turned into the `ValueError` carrying class name and tag. -/
def getModelConstructor (className : String) (config : ModelConfig) :
    Except PyErr TaggerType :=
  match dictGet config.model_settings "classifier_type" with
  | none => Except.error (PyErr.keyError "classifier_type")
  | some classifier_type =>
    if classifier_type == MEMM_TYPE then Except.ok TaggerType.MemmModel
    else if classifier_type == CRF_TYPE then Except.ok TaggerType.ConditionalRandomFields
    else Except.error (PyErr.valueError (classifierNotRecognizedMsg className classifier_type))

/-- Python `params or self.config.params`: an absent or empty (falsy) explicit
params dict falls back to the configuration's params. -/
def pyOrParams (p : Option Params) (d : Params) : Params :=
  match p with
  | none => d
  | some ps => if ps.isEmpty then d else ps

/-- The list comprehension `[xs[i] for i in indices]`; a Python `IndexError`
is `none`. -/
def reindex {β : Type} (xs : List β) (indices : List Nat) : Option (List β) :=
  indices.mapM (fun i => xs.get? i)

/-- The comprehension `[entity.entity.type for label in labels for entity in label]`. -/
def entityTypes (labels : List Label) : List String :=
  labels.flatMap (fun label => label.map (fun e => e.entity.type))

/-- The part of `TaggerModel.fit` from the entity-type collection on (source
lines 105-141), applied to the already shuffled `examples`/`labels`;
`skip_param_selection` and the `params or self.config.params` fallback from
lines 96-97 depend only on the explicit `params` and the config, so they are
recomputed here unchanged. -/
def fitShuffled {α : Type} (s : TaggerModel α) (C : Collab α)
    (examples : List α) (labels : List Label) (params : Option Params) :
    Except PyErr (TaggerModel α × FitLog α) :=
  let skip_param_selection := params.isSome || s.config.param_selection.isNone
  let params := pyOrParams params s.config.params
  let types := entityTypes labels
  let s : TaggerModel α := { s with types := some types }
  -- len(set(types)) == 0: dedup length is the number of distinct entity types
  if types.dedup.length = 0 then
    Except.ok ({ s with no_entities := true },
      { warnings := [WarnMsg.noLabelsFit], constructed_clf := false,
        constructed_encoder := false, ran_param_search := false,
        encode_args := none, extract_args := none })
  else
    match getModelConstructor taggerClassName s.config with
    | Except.error e => Except.error e
    | Except.ok ttype =>
    let enc := C.get_label_encoder s.config
    match C.encode enc labels examples with
    | Except.error e => Except.error e
    | Except.ok y =>
    match C.extract_features ttype examples s.config s.resources y with
    | Except.error e => Except.error e
    | Except.ok (X, y, groups) =>
    if skip_param_selection then
      Except.ok ({ s with clf := some ⟨ttype, params, X, y⟩,
                          label_encoder := some enc,
                          current_params := some params },
        { warnings := [], constructed_clf := true, constructed_encoder := true,
          ran_param_search := false, encode_args := some (labels, examples),
          extract_args := some examples })
    else
      let best_params := C.fit_cv ttype X y groups
      Except.ok ({ s with clf := some ⟨ttype, best_params, X, y⟩,
                          label_encoder := some enc,
                          current_params := some best_params },
        { warnings := [], constructed_clf := true, constructed_encoder := true,
          ran_param_search := true, encode_args := some (labels, examples),
          extract_args := some examples })

/-- The method `TaggerModel.fit(examples, labels, params=None)`. `random.shuffle` on
`list(range(len(labels)))` is modelled by the `indices` parameter, which holds
the shuffled contents (an arbitrary permutation of the range); the joint
reindexing models the two list comprehensions of lines 102-103, and the rest
of the body is `fitShuffled`. -/
def TaggerModel.fit {α : Type} (s : TaggerModel α) (C : Collab α)
    (indices : List Nat) (examples : List α) (labels : List Label)
    (params : Option Params) : Except PyErr (TaggerModel α × FitLog α) :=
  match reindex examples indices with
  | none => Except.error PyErr.indexError
  | some examples =>
  match reindex labels indices with
  | none => Except.error PyErr.indexError
  | some labels => fitShuffled s C examples labels params

/-- The method `TaggerModel.predict(examples)`: the degenerate short-circuit returns the
literal single-element list `[()]`; otherwise the classifier predicts tag
sequences which are decoded one per example (Python `zip` truncation). A
missing `_clf` attribute (never fitted) is an `AttributeError`. -/
def TaggerModel.predict {α : Type} (s : TaggerModel α) (C : Collab α)
    (examples : List α) : Except PyErr (List Label) :=
  if s.no_entities then
    Except.ok [[]]
  else
    match s.clf, s.label_encoder with
    | some clf, some enc =>
      let predicted_tags := C.extract_and_predict clf examples s.config s.resources
      Except.ok (List.zipWith (fun tags ex => C.decode enc tags ex)
        predicted_tags examples)
    | _, _ => Except.error (PyErr.attributeError "_clf")

/-- One evaluation record (`EvaluatedExample(e, labels[i], predictions[i],
None, self.config.label_type)`). -/
structure EvaluatedExample (α : Type) where
  exampleObj : α
  expected : Label
  predicted : Label
  probas : Option Nat
  label_type : String
deriving DecidableEq

/-- Modelled from the spec: `Model._get_effective_config` is not under src/;
the spec describes it as the configuration annotated with the hyperparameters
actually selected during fit. -/
def getEffectiveConfig {α : Type} (s : TaggerModel α) : ModelConfig × Option Params :=
  (s.config, s.current_params)

/-- The report object built by `evaluate` (`EntityModelEvaluation`). -/
structure EntityModelEvaluation (α : Type) where
  config : ModelConfig × Option Params
  evaluations : List (EvaluatedExample α)
deriving DecidableEq

/-- The method `TaggerModel.evaluate(examples, labels)`: on the degenerate flag, logs a
warning and returns `None` (modelled `none`); otherwise builds one evaluation
record per example (`labels[i]` may raise `IndexError`). -/
def TaggerModel.evaluate {α : Type} (s : TaggerModel α) (C : Collab α)
    (examples : List α) (labels : List Label) :
    Except PyErr (Option (EntityModelEvaluation α) × List WarnMsg) :=
  if s.no_entities then
    Except.ok (none, [WarnMsg.noLabelsEval])
  else
    match TaggerModel.predict s C examples with
    | Except.error e => Except.error e
    | Except.ok predictions =>
      match (List.range examples.length).mapM (fun i =>
        match examples.get? i, labels.get? i, predictions.get? i with
        | some e, some lab, some pred =>
          some (⟨e, lab, pred, none, s.config.label_type⟩ : EvaluatedExample α)
        | _, _, _ => none) with
      | none => Except.error PyErr.indexError
      | some evaluations =>
        Except.ok (some ⟨getEffectiveConfig s, evaluations⟩, [])

/-- The allow-list `resources_to_persist = set(['sys_types'])`. -/
def resources_to_persist : List String := ["sys_types"]

/-- Python `del d[key]` on a dict-as-association-list. -/
def dictDel (d : Resources) (k : String) : Resources :=
  d.filter (fun kv => !(kv.1 == k))

/-- The loop `for key in list(attributes[resources].keys()): if key not in
resources_to_persist: del attributes[resources][key]`. -/
def delNonPersisted (persist : List String) : List String → Resources → Resources
  | [], d => d
  | k :: ks, d =>
    delNonPersisted persist ks (if persist.contains k then d else dictDel d k)

/-- The serialization hook `__getstate__`: `attributes = self.__dict__.copy()` is a shallow copy, so
`attributes[_resources]` aliases the instance's own `_resources` dict and the
deletion loop mutates both. The result is the pair (persisted state, live
instance state after the call); they share the filtered resources. -/
def TaggerModel.getstate {α : Type} (s : TaggerModel α) :
    TaggerModel α × TaggerModel α :=
  let newResources :=
    delNonPersisted resources_to_persist (s.resources.map Prod.fst) s.resources
  ({ s with resources := newResources }, { s with resources := newResources })

/-! Helper notions and lemmas shared by the claim theorems. -/

/-- Boolean test that the second list occurs at the head of the first. -/
def startsWithList : List Char → List Char → Bool
  | _, [] => true
  | [], _ :: _ => false
  | c :: cs, p :: ps => c == p && startsWithList cs ps

/-- Boolean test that the second list occurs contiguously in the first. -/
def hasSubList : List Char → List Char → Bool
  | [], pat => startsWithList [] pat
  | c :: cs, pat => startsWithList (c :: cs) pat || hasSubList cs pat

/-- Boolean substring test on strings. -/
def strHasSub (s pat : String) : Bool := hasSubList s.toList pat.toList

theorem startsWithList_append (b c : List Char) :
    startsWithList (b ++ c) b = true := by
  induction b with
  | nil => cases c <;> rfl
  | cons x xs ih => simp [startsWithList, ih]

theorem hasSubList_append (a rest pat : List Char)
    (h : startsWithList rest pat = true) : hasSubList (a ++ rest) pat = true := by
  induction a with
  | nil => cases rest <;> simp_all [hasSubList]
  | cons x xs ih => simp [hasSubList, ih]

theorem strHasSub_mid (a b c : String) : strHasSub (a ++ b ++ c) b = true := by
  have h1 : (a ++ b ++ c).toList = a.toList ++ (b.toList ++ c.toList) := by
    simp [String.toList, String.data_append]
  rw [strHasSub, h1]
  exact hasSubList_append _ _ _ (startsWithList_append _ _)

theorem reindex_eq_map_getD {β : Type} [Inhabited β] (xs : List β) :
    ∀ is : List Nat, (∀ i ∈ is, i < xs.length) →
    reindex xs is = some (is.map (fun i => xs.getD i default)) := by
  intro is
  induction is with
  | nil => intro _; rfl
  | cons j js ih =>
    intro h
    have hj : j < xs.length := h j (List.mem_cons_self j js)
    have hjs : ∀ i ∈ js, i < xs.length := fun i hi => h i (List.mem_cons_of_mem j hi)
    simp only [reindex, List.mapM_cons] at ih ⊢
    rw [List.get?_eq_get hj, ih hjs]
    simp [List.getD_eq_getElem _ _ hj, List.get_eq_getElem, List.getElem?_eq_getElem hj]

theorem map_getD_range {β : Type} [Inhabited β] (xs : List β) :
    (List.range xs.length).map (fun i => xs.getD i default) = xs := by
  induction xs with
  | nil => rfl
  | cons x rest ih =>
    rw [List.length_cons, List.range_succ_eq_map, List.map_cons, List.map_map]
    simp only [List.getD_cons_zero, Function.comp_def, List.getD_cons_succ]
    rw [ih]

theorem reindex_perm {β : Type} [Inhabited β] (xs : List β) (is : List Nat)
    (hp : is.Perm (List.range xs.length)) :
    reindex xs is = some (is.map (fun i => xs.getD i default)) ∧
    (is.map (fun i => xs.getD i default)).Perm xs := by
  have hb : ∀ i ∈ is, i < xs.length := by
    intro i hi
    exact List.mem_range.mp (hp.mem_iff.mp hi)
  refine ⟨reindex_eq_map_getD xs is hb, ?_⟩
  have hm := List.Perm.map (fun i => xs.getD i default) hp
  rw [map_getD_range] at hm
  exact hm

theorem reindex_eq_none {β : Type} (xs : List β) :
    ∀ (is : List Nat) (i : Nat), i ∈ is → xs.length ≤ i → reindex xs is = none := by
  intro is
  induction is with
  | nil => intro i hi; cases hi
  | cons j js ih =>
    intro i hi hlen
    simp only [reindex, List.mapM_cons]
    rcases List.mem_cons.mp hi with h | h
    · subst h
      rw [List.get?_eq_none.mpr hlen]
      rfl
    · cases hj : xs.get? j with
      | none => rfl
      | some v =>
        have h2 := ih i h hlen
        simp only [reindex] at h2
        rw [h2]
        rfl

theorem getD_zip {β γ : Type} (xs : List β) (ys : List γ) (i : Nat) (dx : β) (dy : γ)
    (h : i < xs.length) (h2 : i < ys.length) :
    (xs.zip ys).getD i (dx, dy) = (xs.getD i dx, ys.getD i dy) := by
  have hz : i < (xs.zip ys).length := by
    rw [List.length_zip]
    exact lt_min h h2
  rw [List.getD_eq_getElem _ _ hz, List.getD_eq_getElem _ _ h, List.getD_eq_getElem _ _ h2]
  exact List.getElem_zip

theorem delNonPersisted_eq_filter (persist : List String) :
    ∀ (ks : List String) (d : Resources),
    (∀ kv ∈ d, kv.1 ∈ persist ∨ kv.1 ∈ ks) →
    delNonPersisted persist ks d = d.filter (fun kv => persist.contains kv.1) := by
  intro ks
  induction ks with
  | nil =>
    intro d h
    rw [delNonPersisted]
    symm
    rw [List.filter_eq_self]
    intro kv hkv
    rcases h kv hkv with hm | hm
    · exact List.elem_iff.mpr hm
    · cases hm
  | cons k ks ih =>
    intro d h
    rw [delNonPersisted]
    by_cases hk : k ∈ persist
    · rw [if_pos (List.elem_iff.mpr hk)]
      apply ih
      intro kv hkv
      rcases h kv hkv with hm | hm
      · exact Or.inl hm
      · rcases List.mem_cons.mp hm with he | he
        · exact Or.inl (he ▸ hk)
        · exact Or.inr he
    · have hc : persist.contains k = false := by
        rw [Bool.eq_false_iff]
        intro hcc
        exact hk (List.elem_iff.mp hcc)
      rw [if_neg (by rw [hc]; exact Bool.false_ne_true)]
      rw [ih]
      · rw [dictDel, List.filter_filter]
        apply List.filter_congr
        intro kv hkv
        by_cases hkvk : kv.1 = k
        · rw [hkvk]
          have hck : persist.contains k = false := hc
          rw [hck]
          rfl
        · have hbk : (kv.1 == k) = false := beq_eq_false_iff_ne.mpr hkvk
          rw [hbk]
          simp
      · intro kv hkv
        rw [dictDel, List.mem_filter] at hkv
        rcases h kv hkv.1 with hm | hm
        · exact Or.inl hm
        · rcases List.mem_cons.mp hm with he | he
          · exfalso
            have h2 := hkv.2
            rw [he] at h2
            simp at h2
          · exact Or.inr he

theorem predict_degenerate {α : Type} (s : TaggerModel α) (C : Collab α)
    (examples : List α) (h : s.no_entities = true) :
    TaggerModel.predict s C examples = Except.ok [[]] := by
  simp [TaggerModel.predict, h]

theorem evaluate_degenerate {α : Type} (s : TaggerModel α) (C : Collab α)
    (examples : List α) (labels : List Label) (h : s.no_entities = true) :
    TaggerModel.evaluate s C examples labels
      = Except.ok (none, [WarnMsg.noLabelsEval]) := by
  simp [TaggerModel.evaluate, h]

theorem fit_ok_cases {α : Type} {s : TaggerModel α} {C : Collab α}
    {indices : List Nat} {examples : List α} {labels : List Label}
    {params : Option Params} {st : TaggerModel α} {log : FitLog α}
    (hfit : TaggerModel.fit s C indices examples labels params
      = Except.ok (st, log)) :
    (s.no_entities = true → st.no_entities = true) ∧
    (log.constructed_clf = true →
      st.no_entities = s.no_entities ∧ st.clf.isSome = true ∧
      st.current_params.isSome = true) := by
  simp only [TaggerModel.fit, fitShuffled] at hfit
  repeat' split at hfit
  all_goals try simp only [Except.ok.injEq, Prod.mk.injEq] at hfit
  all_goals
    first
      | (obtain ⟨h1, h2⟩ := hfit
         subst h1
         subst h2
         simp_all)
      | simp at hfit

theorem entityTypes_perm {labs labels : List Label} (hp : labs.Perm labels) :
    (entityTypes labs).Perm (entityTypes labels) := by
  rw [entityTypes, entityTypes]
  exact List.Perm.flatMap_right (fun label => label.map (fun e => e.entity.type)) hp

theorem dedup_length_ne_zero {l : List String} (h : l ≠ []) :
    l.dedup.length ≠ 0 := by
  intro h0
  exact h ((List.dedup_eq_nil _).mp (List.length_eq_zero.mp h0))

theorem getstate_resources_filter {α : Type} (s : TaggerModel α) :
    delNonPersisted resources_to_persist (s.resources.map Prod.fst) s.resources
      = s.resources.filter (fun kv => kv.1 == "sys_types") := by
  rw [delNonPersisted_eq_filter]
  · apply List.filter_congr
    intro kv _
    cases hb : kv.1 == "sys_types" <;>
      simp [resources_to_persist, List.contains, List.elem, hb]
  · intro kv hkv
    exact Or.inr (List.mem_map_of_mem Prod.fst hkv)

theorem dictGet_filter_self (d : Resources) (k : String) :
    dictGet (d.filter (fun kv => kv.1 == k)) k = dictGet d k := by
  induction d with
  | nil => rfl
  | cons kv rest ih =>
    cases hb : kv.1 == k <;> simp [dictGet, List.filter_cons, hb, ih]

theorem fit_eq_fitShuffled {α : Type} {s : TaggerModel α} {C : Collab α}
    {indices : List Nat} {examples exs : List α} {labels : List Label}
    {labs : List Label} {params : Option Params}
    (hex : reindex examples indices = some exs)
    (hlb : reindex labels indices = some labs) :
    TaggerModel.fit s C indices examples labels params
      = fitShuffled s C exs labs params := by
  simp only [TaggerModel.fit, hex, hlb]

theorem fitShuffled_ctor_error {α : Type} {s : TaggerModel α} {C : Collab α}
    {examples : List α} {labels : List Label} {params : Option Params} {e : PyErr}
    (hne : (entityTypes labels).dedup.length ≠ 0)
    (hg : getModelConstructor taggerClassName s.config = Except.error e) :
    fitShuffled s C examples labels params = Except.error e := by
  simp [fitShuffled, hne, hg]

theorem fitShuffled_encode_error {α : Type} {s : TaggerModel α} {C : Collab α}
    {examples : List α} {labels : List Label} {params : Option Params} {e : PyErr}
    {ttype : TaggerType}
    (hne : (entityTypes labels).dedup.length ≠ 0)
    (hg : getModelConstructor taggerClassName s.config = Except.ok ttype)
    (he : C.encode (C.get_label_encoder s.config) labels examples
      = Except.error e) :
    fitShuffled s C examples labels params = Except.error e := by
  simp [fitShuffled, hne, hg, he]

theorem fitShuffled_extract_error {α : Type} {s : TaggerModel α} {C : Collab α}
    {examples : List α} {labels : List Label} {params : Option Params} {e : PyErr}
    {ttype : TaggerType} {y : TargetY}
    (hne : (entityTypes labels).dedup.length ≠ 0)
    (hg : getModelConstructor taggerClassName s.config = Except.ok ttype)
    (he : C.encode (C.get_label_encoder s.config) labels examples = Except.ok y)
    (hx : C.extract_features ttype examples s.config s.resources y
      = Except.error e) :
    fitShuffled s C examples labels params = Except.error e := by
  simp [fitShuffled, hne, hg, he, hx]

theorem fitShuffled_args {α : Type} {s : TaggerModel α} {C : Collab α}
    {examples : List α} {labels : List Label} {params : Option Params}
    {st : TaggerModel α} {log : FitLog α}
    (hfit : fitShuffled s C examples labels params = Except.ok (st, log)) :
    (∀ pr, log.encode_args = some pr → pr = (labels, examples)) ∧
    (∀ q, log.extract_args = some q → q = examples) := by
  simp only [fitShuffled] at hfit
  repeat' split at hfit
  all_goals try simp only [Except.ok.injEq, Prod.mk.injEq] at hfit
  all_goals
    first
      | (obtain ⟨h1, h2⟩ := hfit
         subst h1
         subst h2
         simp_all)
      | simp at hfit

theorem getModelConstructor_unrecognized {config : ModelConfig} {ct : String}
    (hct : dictGet config.model_settings "classifier_type" = some ct)
    (hm : ct ≠ MEMM_TYPE) (hc : ct ≠ CRF_TYPE) :
    getModelConstructor taggerClassName config
      = Except.error (PyErr.valueError (classifierNotRecognizedMsg taggerClassName ct)) := by
  simp [getModelConstructor, hct, hm, hc]

theorem init_model_settings {α : Type} (cfg : ModelConfig) :
    ((TaggerModel.init cfg : TaggerModel α)).config.model_settings
      = cfg.model_settings := by
  rw [TaggerModel.init]
  by_cases h : cfg.features.isEmpty <;> simp [h]

theorem strHasSub_left (b c : String) : strHasSub (b ++ c) b = true := by
  rw [strHasSub]
  have h1 : (b ++ c).toList = b.toList ++ c.toList := by
    simp [String.toList, String.data_append]
  rw [h1]
  exact hasSubList_append [] _ _ (startsWithList_append _ _)

/-! Concrete fixtures for witnesses and counterexamples. -/

/-- A query entity of entity type X. -/
def qeX : QueryEntity := ⟨⟨"X"⟩⟩

/-- A configuration with explicit features, the memm classifier, default
params and a param-selection policy. -/
def cfgSel : ModelConfig :=
  { features := [("bag-of-words-seq", [])],
    model_settings := [("classifier_type", "memm")],
    params := [("penalty", 1)],
    param_selection := some 0,
    label_type := "entities" }

/-- The same configuration without a param-selection policy. -/
def cfgNoSel : ModelConfig := { cfgSel with param_selection := none }

/-- The same configuration with an unrecognized classifier type. -/
def cfgBad : ModelConfig :=
  { cfgSel with model_settings := [("classifier_type", "nonexistent")] }

/-- The same configuration with an empty feature dict. -/
def cfgEmptyFeat : ModelConfig := { cfgSel with features := [] }

/-- Concrete collaborators whose label encoder rejects argument lists of
mismatched lengths, as a real label encoder would. -/
def collabChk : Collab Nat :=
  { get_label_encoder := fun _ => 0,
    encode := fun _ labels exs =>
      if labels.length == exs.length then Except.ok labels.length
      else Except.error (PyErr.collabError 1),
    extract_features := fun _ exs _ _ y => Except.ok (exs.length, y, 0),
    fit_cv := fun _ _ _ _ => [("best", 7)],
    extract_and_predict := fun _ exs _ _ => exs.map (fun _ => 0),
    decode := fun _ _ _ => [qeX] }

/-- Concrete collaborators that never raise. -/
def collabTotal : Collab Nat :=
  { collabChk with encode := fun _ labels _ => Except.ok labels.length }

/-- The instance constructed from `cfgSel`. -/
def sSel : TaggerModel Nat := TaggerModel.init cfgSel

/-- The instance constructed from `cfgNoSel`. -/
def sNoSel : TaggerModel Nat := TaggerModel.init cfgNoSel

/-- A degenerate instance, as left by a fit over labels without entities. -/
def sDegc : TaggerModel Nat :=
  { config := cfgSel, resources := [], no_entities := true, clf := none,
    label_encoder := none, current_params := none, types := some [] }

/-- C1: for every TaggerModel whose degenerate flag is set, predict(examples)
returns exactly the single-element list [()] regardless of len(examples), and
evaluate(examples, labels) returns nothing (no report object), after a warning. -/
theorem degenerate_predict_evaluate {α : Type} (s : TaggerModel α) (C : Collab α)
    (examples : List α) (labels : List Label) (h : s.no_entities = true) :
    TaggerModel.predict s C examples = Except.ok [[]] ∧
    TaggerModel.evaluate s C examples labels
      = Except.ok (none, [WarnMsg.noLabelsEval]) :=
  ⟨predict_degenerate s C examples h, evaluate_degenerate s C examples labels h⟩

/-- Witness for C1 at a concrete degenerate instance and three examples. -/
theorem degenerate_predict_evaluate_witness :
    TaggerModel.predict sDegc collabChk [5, 6, 7] = Except.ok [[]] ∧
    TaggerModel.evaluate sDegc collabChk [5, 6, 7] [[qeX]]
      = Except.ok (none, [WarnMsg.noLabelsEval]) :=
  degenerate_predict_evaluate sDegc collabChk [5, 6, 7] [[qeX]] rfl

/-- C4: for every fit input whose labels carry no entity type at all, fit sets
the degenerate flag, logs a warning instead of raising, stores the collected
types, and returns self without constructing a classifier or label encoder. -/
theorem fit_no_entity_types {α : Type} [Inhabited α] (s : TaggerModel α)
    (C : Collab α) (indices : List Nat) (examples : List α) (labels : List Label)
    (params : Option Params)
    (hp : indices.Perm (List.range labels.length))
    (hlen : examples.length = labels.length)
    (hty : entityTypes labels = []) :
    TaggerModel.fit s C indices examples labels params =
      Except.ok (({ s with no_entities := true, types := some [] } : TaggerModel α),
        { warnings := [WarnMsg.noLabelsFit], constructed_clf := false,
          constructed_encoder := false, ran_param_search := false,
          encode_args := none, extract_args := none }) := by
  have hpe : indices.Perm (List.range examples.length) := by rw [hlen]; exact hp
  obtain ⟨hex, _⟩ := reindex_perm examples indices hpe
  obtain ⟨hlb, hlbp⟩ := reindex_perm labels indices hp
  have hlabs : entityTypes (indices.map fun i => labels.getD i default) = [] := by
    have hpm := entityTypes_perm hlbp
    rw [hty] at hpm
    exact hpm.eq_nil
  simp_all [TaggerModel.fit, fitShuffled]

/-- Witness for C4: concrete degenerate fit. -/
theorem fit_no_entity_types_witness :
    TaggerModel.fit sSel collabChk [1, 0] [5, 6] [[], []] none =
      Except.ok (({ sSel with no_entities := true, types := some [] } : TaggerModel Nat),
        { warnings := [WarnMsg.noLabelsFit], constructed_clf := false,
          constructed_encoder := false, ran_param_search := false,
          encode_args := none, extract_args := none }) :=
  fit_no_entity_types sSel collabChk [1, 0] [5, 6] [[], []] none
    (by decide) rfl rfl

/-- C7: the persisted state keeps config, clf, label encoder, current params
and the degenerate flag unchanged, and of the resources cache keeps exactly
the allow-listed sys_types entries; every other entry is absent. -/
theorem getstate_persisted {α : Type} (s : TaggerModel α) :
    (TaggerModel.getstate s).1.config = s.config ∧
    (TaggerModel.getstate s).1.clf = s.clf ∧
    (TaggerModel.getstate s).1.label_encoder = s.label_encoder ∧
    (TaggerModel.getstate s).1.current_params = s.current_params ∧
    (TaggerModel.getstate s).1.no_entities = s.no_entities ∧
    (TaggerModel.getstate s).1.resources
      = s.resources.filter (fun kv => kv.1 == "sys_types") ∧
    dictGet (TaggerModel.getstate s).1.resources "sys_types"
      = dictGet s.resources "sys_types" ∧
    ((TaggerModel.getstate s).1.resources.all (fun kv => kv.1 == "sys_types"))
      = true := by
  have hres : (TaggerModel.getstate s).1.resources
      = s.resources.filter (fun kv => kv.1 == "sys_types") := by
    simp only [TaggerModel.getstate]
    exact getstate_resources_filter s
  refine ⟨rfl, rfl, rfl, rfl, rfl, hres, ?_, ?_⟩
  · rw [hres]
    exact dictGet_filter_self _ _
  · rw [hres, List.all_eq_true]
    intro kv hkv
    exact (List.mem_filter.mp hkv).2

/-- C10: __getstate__ mutates the live instance through the shallow copy: its
resources cache, aliased by the copied state, is filtered down to the
allow-listed sys_types entries as well. -/
theorem getstate_mutates_live {α : Type} (s : TaggerModel α) :
    (TaggerModel.getstate s).2.resources
      = s.resources.filter (fun kv => kv.1 == "sys_types") ∧
    (TaggerModel.getstate s).2.resources = (TaggerModel.getstate s).1.resources ∧
    ((TaggerModel.getstate s).2.resources.all (fun kv => kv.1 == "sys_types"))
      = true := by
  have hres : (TaggerModel.getstate s).2.resources
      = s.resources.filter (fun kv => kv.1 == "sys_types") := by
    simp only [TaggerModel.getstate]
    exact getstate_resources_filter s
  refine ⟨hres, rfl, ?_⟩
  rw [hres, List.all_eq_true]
  intro kv hkv
  exact (List.mem_filter.mp hkv).2

/-- C9: construction with an empty feature mapping injects exactly the fixed
default feature set (bag-of-words-seq, in-gaz-span-seq, sys-candidates-seq);
a non-empty feature set is left unchanged; both initialize the degenerate
flag to false. -/
theorem init_feature_defaults {α : Type} (cfg : ModelConfig) :
    ((TaggerModel.init cfg : TaggerModel α)).no_entities = false ∧
    DEFAULT_FEATURES.map Prod.fst
      = ["bag-of-words-seq", "in-gaz-span-seq", "sys-candidates-seq"] ∧
    (cfg.features = [] →
      (TaggerModel.init cfg : TaggerModel α).config
        = { cfg with features := DEFAULT_FEATURES }) ∧
    (cfg.features ≠ [] →
      (TaggerModel.init cfg : TaggerModel α).config = cfg) := by
  refine ⟨rfl, rfl, ?_, ?_⟩
  · intro h
    simp [TaggerModel.init, h]
  · intro h
    have hne : cfg.features.isEmpty = false := by
      cases hf : cfg.features with
      | nil => exact absurd hf h
      | cons a l => rfl
    simp [TaggerModel.init, hne]

/-- Witness for C9 at a featureless configuration. -/
theorem init_feature_defaults_witness :
    ((TaggerModel.init cfgEmptyFeat : TaggerModel Nat)).no_entities = false ∧
    DEFAULT_FEATURES.map Prod.fst
      = ["bag-of-words-seq", "in-gaz-span-seq", "sys-candidates-seq"] ∧
    (cfgEmptyFeat.features = [] →
      (TaggerModel.init cfgEmptyFeat : TaggerModel Nat).config
        = { cfgEmptyFeat with features := DEFAULT_FEATURES }) ∧
    (cfgEmptyFeat.features ≠ [] →
      (TaggerModel.init cfgEmptyFeat : TaggerModel Nat).config = cfgEmptyFeat) :=
  init_feature_defaults cfgEmptyFeat

/-- Counterexample to C2 as stated: a degenerate fit followed by a fit whose
labels do carry an entity type trains a classifier but leaves the degenerate
flag set, so predict still short-circuits to the single-element [()] instead
of taking the full classifier path (which would return [[qeX]] here). -/
theorem refit_keeps_degenerate_counterexample :
    ((TaggerModel.fit sSel collabChk [0] [7] [[]] none).bind (fun r =>
      TaggerModel.fit r.1 collabChk [0] [7] [[qeX]] none)).map (fun r =>
        (r.1.no_entities, r.1.clf.isSome,
          TaggerModel.predict r.1 collabChk [7],
          TaggerModel.predict ({ r.1 with no_entities := false } : TaggerModel Nat)
            collabChk [7]))
      = Except.ok (true, true, Except.ok [[]], Except.ok [[qeX]]) := by rfl

/-- C2 amended: a second fit re-enters the degenerate decision and, when its
labels carry at least one entity type, trains and stores a classifier and
current params; but the degenerate flag is never cleared, so the instance
stays degenerate and predict still short-circuits to [()]. -/
theorem fit_after_degenerate {α : Type} (s : TaggerModel α) (C C2 : Collab α)
    (indices : List Nat) (examples ex2 : List α) (labels : List Label)
    (params : Option Params) (st : TaggerModel α) (log : FitLog α)
    (hdeg : s.no_entities = true)
    (hfit : TaggerModel.fit s C indices examples labels params
      = Except.ok (st, log))
    (htrained : log.constructed_clf = true) :
    st.no_entities = true ∧ st.clf.isSome = true ∧
    st.current_params.isSome = true ∧
    TaggerModel.predict st C2 ex2 = Except.ok [[]] := by
  obtain ⟨h1, h2⟩ := fit_ok_cases hfit
  have hne := h1 hdeg
  obtain ⟨_, hclf, hcur⟩ := h2 htrained
  exact ⟨hne, hclf, hcur, predict_degenerate st C2 ex2 hne⟩

/-- The state after refitting the degenerate `sDegc` on one entity label. -/
def stRefit : TaggerModel Nat :=
  { config := cfgSel, resources := [], no_entities := true,
    clf := some ⟨TaggerType.MemmModel, [("best", 7)], 1, 1⟩,
    label_encoder := some 0, current_params := some [("best", 7)],
    types := some ["X"] }

/-- The fit log of that refit. -/
def logRefit : FitLog Nat :=
  { warnings := [], constructed_clf := true, constructed_encoder := true,
    ran_param_search := true, encode_args := some ([[qeX]], [7]),
    extract_args := some [7] }

/-- Witness for the amended C2 at the concrete refit scenario. -/
theorem fit_after_degenerate_witness :
    stRefit.no_entities = true ∧ stRefit.clf.isSome = true ∧
    stRefit.current_params.isSome = true ∧
    TaggerModel.predict stRefit collabChk [7] = Except.ok [[]] :=
  fit_after_degenerate sDegc collabChk collabChk [0] [7] [7] [[qeX]] none
    stRefit logRefit rfl rfl rfl

/-- Counterexample to C5 as stated: an explicitly given empty params dict is
falsy in Python, so search is skipped but _current_params falls back to the
configuration's default params instead of the params passed in. -/
theorem empty_params_counterexample :
    (TaggerModel.fit sSel collabChk [0] [9] [[qeX]] (some [])).map
        (fun r => (r.2.ran_param_search, r.1.current_params))
      = Except.ok (false, some [("penalty", 1)]) ∧
    some ([] : Params) ≠ some [("penalty", 1)] := by
  constructor
  · rfl
  · decide

/-- C5 amended: with at least one entity type, search is skipped iff explicit
params are given or the config has no param_selection; _current_params equals
the passed params when they are given and non-empty, the config's default
params when they are absent or given empty (Python truthiness) and no search
ran, and in every case the params the stored classifier was fitted with. -/
theorem fit_param_selection {α : Type} [Inhabited α] (s : TaggerModel α)
    (C : Collab α) (indices : List Nat) (examples : List α) (labels : List Label)
    (params : Option Params) (st : TaggerModel α) (log : FitLog α)
    (hp : indices.Perm (List.range labels.length))
    (hty : entityTypes labels ≠ [])
    (hfit : TaggerModel.fit s C indices examples labels params
      = Except.ok (st, log)) :
    (log.ran_param_search = false
      ↔ (params.isSome = true ∨ s.config.param_selection = none)) ∧
    (∀ ps, params = some ps → ps ≠ [] → st.current_params = some ps) ∧
    (params = some [] → st.current_params = some s.config.params) ∧
    (params = none → log.ran_param_search = false →
      st.current_params = some s.config.params) ∧
    (∀ c, st.clf = some c → st.current_params = some c.params) := by
  obtain ⟨hlb, hlbp⟩ := reindex_perm labels indices hp
  have hlabs : entityTypes (indices.map fun i => labels.getD i default) ≠ [] := by
    intro h0
    have hpm := entityTypes_perm hlbp
    rw [h0] at hpm
    exact hty (hpm.symm.eq_nil)
  cases hrx : reindex examples indices with
  | none =>
    rw [TaggerModel.fit, hrx] at hfit
    cases hfit
  | some exs =>
    rw [fit_eq_fitShuffled hrx hlb] at hfit
    simp only [fitShuffled] at hfit
    repeat' split at hfit
    all_goals try simp only [Except.ok.injEq, Prod.mk.injEq] at hfit
    any_goals solve
      | exact absurd ((List.dedup_eq_nil _).mp (List.length_eq_zero.mp (by assumption))) hlabs
      | cases hfit
    all_goals
      (obtain ⟨h1, h2⟩ := hfit
       subst h1
       subst h2
       refine ⟨by simp_all [Option.isNone_iff_eq_none], ?_, ?_, ?_, ?_⟩
       · intro ps hps hpsne
         subst hps
         simp_all [pyOrParams, List.isEmpty_iff]
       · intro hps
         subst hps
         simp_all [pyOrParams]
       · intro hps hran
         subst hps
         simp_all [pyOrParams]
       · intro c hc
         dsimp only at hc
         injection hc with hc
         subst hc
         rfl)

/-- The state after fitting `sSel` with explicit non-empty params. -/
def stParamsW : TaggerModel Nat :=
  { config := cfgSel, resources := [], no_entities := false,
    clf := some ⟨TaggerType.MemmModel, [("C", 9)], 1, 1⟩,
    label_encoder := some 0, current_params := some [("C", 9)],
    types := some ["X"] }

/-- The fit log of that call. -/
def logParamsW : FitLog Nat :=
  { warnings := [], constructed_clf := true, constructed_encoder := true,
    ran_param_search := false, encode_args := some ([[qeX]], [9]),
    extract_args := some [9] }

/-- Witness for the amended C5 at a concrete fit with explicit params. -/
theorem fit_param_selection_witness :
    (logParamsW.ran_param_search = false
      ↔ ((some [("C", 9)] : Option Params).isSome = true
          ∨ sSel.config.param_selection = none)) ∧
    (∀ ps, (some [("C", 9)] : Option Params) = some ps → ps ≠ [] →
      stParamsW.current_params = some ps) ∧
    ((some [("C", 9)] : Option Params) = some [] →
      stParamsW.current_params = some sSel.config.params) ∧
    ((some [("C", 9)] : Option Params) = none →
      logParamsW.ran_param_search = false →
      stParamsW.current_params = some sSel.config.params) ∧
    (∀ c, stParamsW.clf = some c → stParamsW.current_params = some c.params) :=
  fit_param_selection sSel collabChk [0] [9] [[qeX]] (some [("C", 9)])
    stParamsW logParamsW (by decide) (by decide) rfl

/-- C6: fit permutes examples and labels jointly with the same permutation of
positions, so the zipped pair lists before and after the shuffle are
permutations of each other (equal as multisets), and the shuffled lists are
exactly what the label encoder and the feature extractor are handed. -/
theorem fit_shuffle_perm {α : Type} [Inhabited α] (s : TaggerModel α)
    (C : Collab α) (indices : List Nat) (examples : List α) (labels : List Label)
    (params : Option Params)
    (hp : indices.Perm (List.range labels.length))
    (hlen : examples.length = labels.length) :
    ∃ exs labs,
      reindex examples indices = some exs ∧
      reindex labels indices = some labs ∧
      (exs.zip labs).Perm (examples.zip labels) ∧
      exs.Perm examples ∧ labs.Perm labels ∧
      (∀ st log, TaggerModel.fit s C indices examples labels params
          = Except.ok (st, log) →
        (∀ pr, log.encode_args = some pr → pr = (labs, exs)) ∧
        (∀ q, log.extract_args = some q → q = exs)) := by
  have hpe : indices.Perm (List.range examples.length) := by rw [hlen]; exact hp
  obtain ⟨hex, hexp⟩ := reindex_perm examples indices hpe
  obtain ⟨hlb, hlbp⟩ := reindex_perm labels indices hp
  refine ⟨_, _, hex, hlb, ?_, hexp, hlbp, ?_⟩
  · have hzl : (examples.zip labels).length = labels.length := by
      rw [List.length_zip, hlen, min_self]
    have hpz : indices.Perm (List.range (examples.zip labels).length) := by
      rw [hzl]; exact hp
    obtain ⟨_, hzp⟩ := reindex_perm (examples.zip labels) indices hpz
    have hmap :
        (indices.map (fun i => examples.getD i default)).zip
            (indices.map (fun i => labels.getD i default))
          = indices.map (fun i => (examples.zip labels).getD i default) := by
      rw [List.zip_map']
      apply List.map_congr_left
      intro i hi
      have hib : i < labels.length := List.mem_range.mp (hp.mem_iff.mp hi)
      have hia : i < examples.length := by rw [hlen]; exact hib
      exact (getD_zip examples labels i default default hia hib).symm
    rw [hmap]
    exact hzp
  · intro st log hfit
    rw [fit_eq_fitShuffled hex hlb] at hfit
    exact fitShuffled_args hfit

/-- Witness for C6 at a concrete three-element shuffle. -/
theorem fit_shuffle_perm_witness :
    ∃ exs labs,
      reindex [5, 6, 7] [2, 0, 1] = some exs ∧
      reindex [[qeX], [], [qeX, qeX]] [2, 0, 1] = some labs ∧
      (exs.zip labs).Perm ([5, 6, 7].zip [[qeX], [], [qeX, qeX]]) ∧
      exs.Perm [5, 6, 7] ∧ labs.Perm [[qeX], [], [qeX, qeX]] ∧
      (∀ st log, TaggerModel.fit sSel collabChk [2, 0, 1] [5, 6, 7]
          [[qeX], [], [qeX, qeX]] none = Except.ok (st, log) →
        (∀ pr, log.encode_args = some pr → pr = (labs, exs)) ∧
        (∀ q, log.extract_args = some q → q = exs)) :=
  fit_shuffle_perm sSel collabChk [2, 0, 1] [5, 6, 7] [[qeX], [], [qeX, qeX]]
    none (by decide) rfl

/-- C3: construction succeeds for any classifier_type tag; the configuration
error (a ValueError carrying both the class name and the quoted invalid tag)
arises only at classifier selection time, i.e. during fit once labels carry
entity types; the recognized tags memm and crf map to their respective
constructors and are never silently defaulted. -/
theorem unrecognized_classifier_type {α : Type} [Inhabited α]
    (cfg : ModelConfig) (ct : String)
    (hct : dictGet cfg.model_settings "classifier_type" = some ct)
    (hm : ct ≠ MEMM_TYPE) (hc : ct ≠ CRF_TYPE) :
    ((TaggerModel.init cfg : TaggerModel α)).config.model_settings
      = cfg.model_settings ∧
    ((TaggerModel.init cfg : TaggerModel α)).no_entities = false ∧
    getModelConstructor taggerClassName
        ((TaggerModel.init cfg : TaggerModel α)).config
      = Except.error
          (PyErr.valueError (classifierNotRecognizedMsg taggerClassName ct)) ∧
    strHasSub (classifierNotRecognizedMsg taggerClassName ct) ct = true ∧
    strHasSub (classifierNotRecognizedMsg taggerClassName ct) taggerClassName
      = true ∧
    (∀ (s : TaggerModel α) (C : Collab α) (indices : List Nat)
        (examples : List α) (labels : List Label) (params : Option Params),
      s.config.model_settings = cfg.model_settings →
      indices.Perm (List.range labels.length) →
      entityTypes labels ≠ [] →
      examples.length = labels.length →
      TaggerModel.fit s C indices examples labels params
        = Except.error
            (PyErr.valueError (classifierNotRecognizedMsg taggerClassName ct))) ∧
    (∀ cfg2 : ModelConfig,
      dictGet cfg2.model_settings "classifier_type" = some MEMM_TYPE →
      getModelConstructor taggerClassName cfg2 = Except.ok TaggerType.MemmModel) ∧
    (∀ cfg2 : ModelConfig,
      dictGet cfg2.model_settings "classifier_type" = some CRF_TYPE →
      getModelConstructor taggerClassName cfg2
        = Except.ok TaggerType.ConditionalRandomFields) := by
  have hms := @init_model_settings α cfg
  refine ⟨hms, rfl, ?_, ?_, ?_, ?_, ?_, ?_⟩
  · exact getModelConstructor_unrecognized (by rw [hms]; exact hct) hm hc
  · have hmsg : classifierNotRecognizedMsg taggerClassName ct
        = (taggerClassName ++ ": Classifier type " ++ sq) ++ ct
            ++ (sq ++ " not recognized") := by
      simp [classifierNotRecognizedMsg, pyReprStr, String.append_assoc]
    rw [hmsg]
    exact strHasSub_mid _ _ _
  · have hmsg : classifierNotRecognizedMsg taggerClassName ct
        = taggerClassName
            ++ (": Classifier type " ++ pyReprStr ct ++ " not recognized") := by
      simp [classifierNotRecognizedMsg, String.append_assoc]
    rw [hmsg]
    exact strHasSub_left _ _
  · intro s C indices examples labels params hsms hp hty hlen
    have hpe : indices.Perm (List.range examples.length) := by rw [hlen]; exact hp
    obtain ⟨hex, _⟩ := reindex_perm examples indices hpe
    obtain ⟨hlb, hlbp⟩ := reindex_perm labels indices hp
    have hlabs : entityTypes (indices.map fun i => labels.getD i default) ≠ [] := by
      intro h0
      have hpm := entityTypes_perm hlbp
      rw [h0] at hpm
      exact hty (hpm.symm.eq_nil)
    rw [fit_eq_fitShuffled hex hlb]
    exact fitShuffled_ctor_error (dedup_length_ne_zero hlabs)
      (getModelConstructor_unrecognized (by rw [hsms]; exact hct) hm hc)
  · intro cfg2 h
    simp [getModelConstructor, h]
  · intro cfg2 h
    simp [getModelConstructor, h, MEMM_TYPE, CRF_TYPE]

/-- Witness for C3 at the concrete tag nonexistent. -/
theorem unrecognized_classifier_type_witness :
    ((TaggerModel.init cfgBad : TaggerModel Nat)).config.model_settings
      = cfgBad.model_settings ∧
    ((TaggerModel.init cfgBad : TaggerModel Nat)).no_entities = false ∧
    getModelConstructor taggerClassName
        ((TaggerModel.init cfgBad : TaggerModel Nat)).config
      = Except.error
          (PyErr.valueError
            (classifierNotRecognizedMsg taggerClassName "nonexistent")) ∧
    strHasSub (classifierNotRecognizedMsg taggerClassName "nonexistent")
        "nonexistent" = true ∧
    strHasSub (classifierNotRecognizedMsg taggerClassName "nonexistent")
        taggerClassName = true ∧
    (∀ (s : TaggerModel Nat) (C : Collab Nat) (indices : List Nat)
        (examples : List Nat) (labels : List Label) (params : Option Params),
      s.config.model_settings = cfgBad.model_settings →
      indices.Perm (List.range labels.length) →
      entityTypes labels ≠ [] →
      examples.length = labels.length →
      TaggerModel.fit s C indices examples labels params
        = Except.error
            (PyErr.valueError
              (classifierNotRecognizedMsg taggerClassName "nonexistent"))) ∧
    (∀ cfg2 : ModelConfig,
      dictGet cfg2.model_settings "classifier_type" = some MEMM_TYPE →
      getModelConstructor taggerClassName cfg2 = Except.ok TaggerType.MemmModel) ∧
    (∀ cfg2 : ModelConfig,
      dictGet cfg2.model_settings "classifier_type" = some CRF_TYPE →
      getModelConstructor taggerClassName cfg2
        = Except.ok TaggerType.ConditionalRandomFields) :=
  unrecognized_classifier_type cfgBad "nonexistent" rfl (by decide) (by decide)

/-- Counterexample to C8 as stated: with two examples and one label, fit
succeeds even though the collaborating label encoder would reject mismatched
argument lengths (it is handed equal-length truncated lists, so no error
surfaces from it); with one example and two labels, fit raises its own
IndexError during reindexing, with collaborators that never raise. -/
theorem mismatch_counterexample :
    (TaggerModel.fit sNoSel collabChk [0] [5, 6] [[qeX]] none).isOk = true ∧
    TaggerModel.fit sNoSel collabTotal [0, 1] [5] [[qeX], [qeX]] none
      = Except.error PyErr.indexError := by
  constructor
  · rfl
  · rfl

/-- C8 amended: fit performs no length validation itself. When examples is at
least as long as labels, the joint shuffle silently truncates examples to
len(labels) positions, so the encoder and feature extractor are handed
equal-length lists and no mismatch error can come from them; when examples is
shorter, fit itself fails with IndexError during reindexing, before any
collaborator runs; errors the label encoder or the feature extractor do raise
propagate unmodified. -/
theorem fit_length_mismatch {α : Type} [Inhabited α] (s : TaggerModel α)
    (C : Collab α) (indices : List Nat) (examples : List α) (labels : List Label)
    (params : Option Params)
    (hp : indices.Perm (List.range labels.length)) :
    (labels.length ≤ examples.length →
      ∃ exs labs,
        reindex examples indices = some exs ∧
        reindex labels indices = some labs ∧
        exs.length = labels.length ∧ labs.length = labels.length ∧
        (∀ st log pr, TaggerModel.fit s C indices examples labels params
            = Except.ok (st, log) → log.encode_args = some pr →
          pr.1.length = pr.2.length)) ∧
    (examples.length < labels.length →
      TaggerModel.fit s C indices examples labels params
        = Except.error PyErr.indexError) ∧
    (∀ exs labs e ttype,
      reindex examples indices = some exs →
      reindex labels indices = some labs →
      entityTypes labs ≠ [] →
      getModelConstructor taggerClassName s.config = Except.ok ttype →
      C.encode (C.get_label_encoder s.config) labs exs = Except.error e →
      TaggerModel.fit s C indices examples labels params = Except.error e) ∧
    (∀ exs labs e ttype y,
      reindex examples indices = some exs →
      reindex labels indices = some labs →
      entityTypes labs ≠ [] →
      getModelConstructor taggerClassName s.config = Except.ok ttype →
      C.encode (C.get_label_encoder s.config) labs exs = Except.ok y →
      C.extract_features ttype exs s.config s.resources y = Except.error e →
      TaggerModel.fit s C indices examples labels params = Except.error e) := by
  have hilen : indices.length = labels.length := by
    rw [hp.length_eq, List.length_range]
  refine ⟨?_, ?_, ?_, ?_⟩
  · intro hle
    have hbl : ∀ i ∈ indices, i < labels.length := fun i hi =>
      List.mem_range.mp (hp.mem_iff.mp hi)
    have hbe : ∀ i ∈ indices, i < examples.length := fun i hi =>
      lt_of_lt_of_le (hbl i hi) hle
    have hex := reindex_eq_map_getD examples indices hbe
    have hlb := reindex_eq_map_getD labels indices hbl
    refine ⟨_, _, hex, hlb, ?_, ?_, ?_⟩
    · rw [List.length_map, hilen]
    · rw [List.length_map, hilen]
    · intro st log pr hfit harg
      rw [fit_eq_fitShuffled hex hlb] at hfit
      obtain ⟨ha, _⟩ := fitShuffled_args hfit
      rw [ha pr harg]
      simp [hilen]
  · intro hlt
    have hmem : examples.length ∈ indices :=
      hp.mem_iff.mpr (List.mem_range.mpr hlt)
    have hnone := reindex_eq_none examples indices examples.length hmem
      (le_refl _)
    simp [TaggerModel.fit, hnone]
  · intro exs labs e ttype hex hlb hne hg he
    rw [fit_eq_fitShuffled hex hlb]
    exact fitShuffled_encode_error (dedup_length_ne_zero hne) hg he
  · intro exs labs e ttype y hex hlb hne hg he hx
    rw [fit_eq_fitShuffled hex hlb]
    exact fitShuffled_extract_error (dedup_length_ne_zero hne) hg he hx

/-- Witness for the amended C8 at a concrete two-vs-one mismatch. -/
theorem fit_length_mismatch_witness :
    (([[qeX]] : List Label).length ≤ ([5, 6] : List Nat).length →
      ∃ exs labs,
        reindex [5, 6] [0] = some exs ∧
        reindex [[qeX]] [0] = some labs ∧
        exs.length = ([[qeX]] : List Label).length ∧
        labs.length = ([[qeX]] : List Label).length ∧
        (∀ st log pr, TaggerModel.fit sNoSel collabChk [0] [5, 6] [[qeX]] none
            = Except.ok (st, log) → log.encode_args = some pr →
          pr.1.length = pr.2.length)) ∧
    (([5, 6] : List Nat).length < ([[qeX]] : List Label).length →
      TaggerModel.fit sNoSel collabChk [0] [5, 6] [[qeX]] none
        = Except.error PyErr.indexError) ∧
    (∀ exs labs e ttype,
      reindex [5, 6] [0] = some exs →
      reindex [[qeX]] [0] = some labs →
      entityTypes labs ≠ [] →
      getModelConstructor taggerClassName sNoSel.config = Except.ok ttype →
      collabChk.encode (collabChk.get_label_encoder sNoSel.config) labs exs
        = Except.error e →
      TaggerModel.fit sNoSel collabChk [0] [5, 6] [[qeX]] none
        = Except.error e) ∧
    (∀ exs labs e ttype y,
      reindex [5, 6] [0] = some exs →
      reindex [[qeX]] [0] = some labs →
      entityTypes labs ≠ [] →
      getModelConstructor taggerClassName sNoSel.config = Except.ok ttype →
      collabChk.encode (collabChk.get_label_encoder sNoSel.config) labs exs
        = Except.ok y →
      collabChk.extract_features ttype exs sNoSel.config sNoSel.resources y
        = Except.error e →
      TaggerModel.fit sNoSel collabChk [0] [5, 6] [[qeX]] none
        = Except.error e) :=
  fit_length_mismatch sNoSel collabChk [0] [5, 6] [[qeX]] none (by decide)

end Mmwb
